import Mathlib

/-!
Verification of the dsr-ai-router request router.

Shallow embedding of the routing / streaming logic found in
`src/proxy/router_proxy.py`, `src/proxy/gemini-bridge/gemini_bridge.py`
and `src/scripts/smart_router.py`.

Conventions used in the embedding:
* Python strings are Lean `String`s; `str.strip()` is `pyStrip`,
  `len(text.split())` is `countWords`.
* External non-determinism (uuid-generated message ids, subprocess
  outcomes, backend outputs) is passed in as explicit parameters, so every
  definition is a pure function of those inputs.
* SSE side effects (`wfile.write(sse(...))`) are modelled as the ordered
  list of events written.
-/

namespace DsrRouter

/-- Text slicing loop, modelling the Python idiom
`for i in range(0, len(text), S): text[i:i+S]` on the character list of the
text.  For `S = 0` Python raises `ValueError`; the code only ever calls it
with `S = 20` or `S = 30`, and the model returns `[]` in that unused case. -/
def sliceLoop (S : Nat) : List Char → List (List Char)
  | [] => []
  | c :: cs =>
    if S = 0 then []
    else (c :: cs).take S :: sliceLoop S ((c :: cs).drop S)
  termination_by l => l.length
  decreasing_by
    simp only [List.length_drop, List.length_cons]
    omega

/-- String-level wrapper for `sliceLoop`: the list of fixed-size slices of
`s`, in order. -/
def sliceText (S : Nat) (s : String) : List String :=
  (sliceLoop S s.data).map List.asString

theorem sliceLoop_nil (S : Nat) : sliceLoop S [] = [] := by
  rw [sliceLoop]

theorem sliceLoop_cons (S : Nat) (c : Char) (cs : List Char) :
    sliceLoop S (c :: cs) =
      if S = 0 then []
      else (c :: cs).take S :: sliceLoop S ((c :: cs).drop S) := by
  rw [sliceLoop]

/-- Concatenating the slices reproduces the original character list. -/
theorem sliceLoop_flatten (S : Nat) (hS : S ≠ 0) :
    ∀ l : List Char, (sliceLoop S l).flatten = l := by
  intro l
  generalize hn : l.length = n
  induction n using Nat.strong_induction_on generalizing l with
  | _ n ih =>
    cases l with
    | nil => simp [sliceLoop_nil]
    | cons c cs =>
      rw [sliceLoop_cons, if_neg hS]
      rw [List.flatten_cons]
      have hlt : ((c :: cs).drop S).length < n := by
        simp only [List.length_drop, List.length_cons]
        subst hn
        simp only [List.length_cons]
        omega
      rw [ih _ hlt _ rfl]
      exact List.take_append_drop S (c :: cs)

/-- The number of slices is `⌈L / S⌉ = (L + S - 1) / S`. -/
theorem sliceLoop_length (S : Nat) (hS : S ≠ 0) :
    ∀ l : List Char, (sliceLoop S l).length = (l.length + (S - 1)) / S := by
  intro l
  generalize hn : l.length = n
  induction n using Nat.strong_induction_on generalizing l with
  | _ n ih =>
    cases l with
    | nil =>
      simp only [List.length_nil] at hn
      subst hn
      simp only [sliceLoop_nil, List.length_nil]
      rw [Nat.div_eq_of_lt (show 0 + (S - 1) < S by omega)]
    | cons c cs =>
      rw [sliceLoop_cons, if_neg hS]
      have hlt : ((c :: cs).drop S).length < n := by
        simp only [List.length_drop, List.length_cons]
        subst hn
        simp only [List.length_cons]
        omega
      simp only [List.length_cons]
      rw [ih _ hlt _ rfl]
      simp only [List.length_drop, List.length_cons]
      subst hn
      simp only [List.length_cons]
      -- arithmetic: 1 + ((L - S) + (S-1)) / S = (L + (S-1)) / S with L = cs.length + 1 ≥ 1
      have hSpos : 0 < S := Nat.pos_of_ne_zero hS
      rcases le_or_lt (cs.length + 1) S with hle | hgt
      · have h0 : cs.length + 1 - S = 0 := by omega
        rw [h0]
        rw [Nat.div_eq_of_lt (show 0 + (S - 1) < S by omega)]
        have h1 : cs.length + 1 + (S - 1) = cs.length + S := by omega
        rw [h1]
        have h2 : cs.length + S = cs.length + 1 * S := by omega
        rw [h2, Nat.add_mul_div_right _ _ hSpos]
        rw [Nat.div_eq_of_lt (show cs.length < S by omega)]
      · have h1 : cs.length + 1 - S + (S - 1) = (cs.length + 1 - S - 1) + S := by omega
        have h2 : cs.length + 1 + (S - 1) = (cs.length + 1 - S - 1) + S + S := by omega
        rw [h1, h2, Nat.add_div_right _ hSpos, Nat.add_div_right _ hSpos,
          Nat.add_div_right _ hSpos]

theorem asString_append (a b : List Char) :
    List.asString (a ++ b) = List.asString a ++ List.asString b := rfl

theorem join_map_asString (cs : List (List Char)) :
    String.join (cs.map List.asString) = List.asString cs.flatten := by
  induction cs with
  | nil => rfl
  | cons c cs ih =>
    simp only [List.map_cons, List.flatten_cons, String.join, List.foldl_cons]
    simp only [String.join] at ih
    rw [asString_append]
    have haux : ∀ (l : List String) (a b : String),
        l.foldl (fun r s => r ++ s) (a ++ b) = a ++ l.foldl (fun r s => r ++ s) b := by
      intro l
      induction l with
      | nil => intro a b; rfl
      | cons x xs ihx =>
        intro a b
        simp only [List.foldl_cons]
        rw [String.append_assoc, ihx]
    have h0 : ("" : String) ++ List.asString c = List.asString c := by
      apply String.ext
      simp
    calc (cs.map List.asString).foldl (fun r s => r ++ s) ("" ++ List.asString c)
        = (cs.map List.asString).foldl (fun r s => r ++ s) (List.asString c) := by rw [h0]
      _ = (cs.map List.asString).foldl (fun r s => r ++ s)
            (List.asString c ++ "") := by rw [String.append_empty]
      _ = List.asString c ++ (cs.map List.asString).foldl (fun r s => r ++ s) "" := by
            rw [haux]
      _ = List.asString c ++ List.asString cs.flatten := by rw [ih]

theorem data_asString (l : List Char) : (List.asString l).data = l := rfl

theorem asString_data (s : String) : List.asString s.data = s := rfl

/-- Round trip for `sliceText`: joining the slices restores the string. -/
theorem sliceText_join (S : Nat) (hS : S ≠ 0) (s : String) :
    String.join (sliceText S s) = s := by
  unfold sliceText
  rw [join_map_asString, sliceLoop_flatten S hS, asString_data]

/-- Slice count for `sliceText`: `⌈length / S⌉` slices. -/
theorem sliceText_length (S : Nat) (hS : S ≠ 0) (s : String) :
    (sliceText S s).length = (s.length + (S - 1)) / S := by
  unfold sliceText
  rw [List.length_map, sliceLoop_length S hS]
  rfl

/-- Word-counting loop: counts maximal runs of non-whitespace characters.
The flag records whether the scan is currently inside a word. -/
def pyWordCount : Bool → List Char → Nat
  | _, [] => 0
  | inWord, c :: cs =>
    if c.isWhitespace then pyWordCount false cs
    else (if inWord then 0 else 1) + pyWordCount true cs

/-- Number of whitespace-delimited words, modelling Python `len(s.split())`
(split on whitespace runs, empty pieces discarded). -/
def countWords (s : String) : Nat := pyWordCount false s.data

/-- Model of Python `s.strip()`: drop leading and trailing whitespace. -/
def pyStrip (s : String) : String :=
  List.asString (((s.data.dropWhile Char.isWhitespace).reverse.dropWhile
    Char.isWhitespace).reverse)

-- ── router_proxy.py constants ───────────────────────────────────────────────

def T1_MODEL : String := "qwen3-coder:480b-cloud"
def T1_LABEL : String := "qwen3-coder-480b"
def T2_MODEL : String := "gemini-2.5-flash"
def T3_MODEL : String := "claude-sonnet-4-6"

def GEMINI_MODELS : List String :=
  ["gemini-2.5-pro", "gemini-2.5-flash", "gemini-2.0-flash",
   "gemini-3-flash-preview", "gemini-3-pro-preview", "gemini-proxy"]

def CLAUDE_REAL_MODELS : List String :=
  ["claude-real", "claude-account", "claude-opus-4-6", "claude-opus"]

-- ── SSE helpers of router_proxy.py (message-block dialect) ──────────────────

/-- The `usage` object carried by the `message_start` event. -/
structure Usage where
  input_tokens : Nat
  output_tokens : Nat
  cache_creation_input_tokens : Nat
  cache_read_input_tokens : Nat
deriving DecidableEq, Repr

/-- One SSE event of the Anthropic message-block dialect, as written by the
`sse(event, data)` helper of `router_proxy.py`.  Constructors carry exactly
the data that varies between emissions. -/
inductive Event where
  | message_start (msgId model : String) (usage : Usage)
  | content_block_start
  | content_block_delta (text : String)
  | content_block_stop
  | message_delta (stop_reason : String) (output_tokens : Nat)
  | message_stop
deriving DecidableEq, Repr

/-- Model of `start_stream(wfile, model)`: the two envelope events it
writes.  The uuid-generated message id is passed in explicitly. -/
def start_stream (msgId model : String) : List Event :=
  [Event.message_start msgId model ⟨10, 0, 0, 0⟩, Event.content_block_start]

/-- Model of `send_chunk(wfile, text)`: one content delta event. -/
def send_chunk (text : String) : List Event :=
  [Event.content_block_delta text]

/-- Model of `end_stream(wfile, output_tokens)`: the three terminal
events. -/
def end_stream (output_tokens : Nat) : List Event :=
  [Event.content_block_stop, Event.message_delta "end_turn" output_tokens,
   Event.message_stop]

/-- Model of `non_stream_response(model, text)`: the non-streaming JSON
response object.  The uuid id is passed in explicitly. -/
structure NonStreamResponse where
  id : String
  model : String
  text : String
  stop_reason : String
  input_tokens : Nat
  output_tokens : Nat
deriving DecidableEq, Repr

def non_stream_response (msgId model text : String) : NonStreamResponse :=
  ⟨msgId, model, text, "end_turn", 10, countWords text⟩

-- ── T2 synthetic streaming: route_gemini (router_proxy.py) ──────────────────

/-- Streaming branch of `route_gemini`: `start_stream`, one `send_chunk`
per 30-character slice of the adapter text, then
`end_stream(len(text.split()))`. -/
def route_gemini_stream (msgId model_label text : String) : List Event :=
  start_stream msgId model_label
    ++ (sliceText 30 text).flatMap send_chunk
    ++ end_stream (countWords text)

-- ── T3 synthetic streaming: route_claude_real (router_proxy.py) ─────────────

/-- Outcome of the `claude` subprocess in `route_claude_real`:
either it exits 0 after producing `lines`, exits non-zero (an extra
`[Claude error: …]` chunk follows the lines), or an exception is raised
after `lines` were already streamed (an extra `[Claude launch error: …]`
chunk). -/
inductive ClaudeOutcome where
  | exitOk (lines : List String)
  | exitErr (lines : List String) (stderr : String)
  | launchErr (lines : List String) (msg : String)
deriving DecidableEq, Repr

/-- Tokens accumulated by the `route_claude_real` loop: word count of each
non-empty line (the `if line:` guard skips empty lines). -/
def claudeTokens (lines : List String) : Nat :=
  (((lines.filter fun l => l ≠ "").map countWords)).sum

/-- Streaming branch of `route_claude_real`: `start_stream`, one chunk per
non-empty stdout line, an error chunk if the process failed or threw, then
`end_stream(tokens)`. -/
def route_claude_real_stream (msgId : String) (outcome : ClaudeOutcome) :
    List Event :=
  start_stream msgId T3_MODEL ++
  (match outcome with
   | ClaudeOutcome.exitOk lines =>
       (lines.filter fun l => l ≠ "").flatMap send_chunk
         ++ end_stream (claudeTokens lines)
   | ClaudeOutcome.exitErr lines stderr =>
       (lines.filter fun l => l ≠ "").flatMap send_chunk
         ++ send_chunk ("\n[Claude error: " ++ pyStrip stderr ++ "]")
         ++ end_stream (claudeTokens lines)
   | ClaudeOutcome.launchErr lines msg =>
       (lines.filter fun l => l ≠ "").flatMap send_chunk
         ++ send_chunk ("\n[Claude launch error: " ++ msg ++ "]")
         ++ end_stream (claudeTokens lines))

-- ── Loop guard emissions (do_POST, router_proxy.py) ─────────────────────────

/-- What the loop-guard branch of `do_POST` writes in streaming mode:
`start_stream(wfile, model)` immediately followed by `end_stream(wfile, 0)`. -/
def loopGuardStream (msgId model : String) : List Event :=
  start_stream msgId model ++ end_stream 0

-- ── gemini_bridge.py: chat-completion-chunk dialect ─────────────────────────

/-- One SSE chunk of the OpenAI chat-completion-chunk dialect as written by
`stream_openai_response` (id / created / model metadata is constant per
stream and omitted). -/
inductive OaiEvent where
  | roleChunk
  | contentChunk (text : String)
  | stopChunk
  | doneMarker
deriving DecidableEq, Repr

/-- Model of `stream_openai_response(wfile, text, model)`: a role chunk,
one content chunk per 20-character slice, the stop chunk, and the
`data: [DONE]` sentinel. -/
def stream_openai_response (text : String) : List OaiEvent :=
  [OaiEvent.roleChunk]
    ++ (sliceText 20 text).map OaiEvent.contentChunk
    ++ [OaiEvent.stopChunk, OaiEvent.doneMarker]

-- ── Fragment extraction and stream well-formedness ──────────────────────────

/-- Text fragments carried by content delta events, in emission order. -/
def deltaFragments (evs : List Event) : List String :=
  evs.filterMap fun e =>
    match e with
    | Event.content_block_delta t => some t
    | _ => none

/-- Text fragments carried by OpenAI-dialect content chunks. -/
def oaiFragments (evs : List OaiEvent) : List String :=
  evs.filterMap fun e =>
    match e with
    | OaiEvent.contentChunk t => some t
    | _ => none

def isContentDelta : Event → Bool
  | Event.content_block_delta _ => true
  | _ => false

/-- Well-formedness of a message-block stream: exactly one envelope-start
sequence (`message_start` then `content_block_start`), then content delta
events only, then exactly one terminal sequence (`content_block_stop`,
`message_delta`, `message_stop`), with nothing after it. -/
def WellFormedStream (evs : List Event) : Prop :=
  ∃ (msgId model : String) (u : Usage) (deltas : List Event)
    (sr : String) (n : Nat),
    (∀ e ∈ deltas, isContentDelta e = true) ∧
    evs = Event.message_start msgId model u :: Event.content_block_start ::
      (deltas ++ [Event.content_block_stop, Event.message_delta sr n,
                  Event.message_stop])

theorem mem_flatMap_send_chunk (l : List String) (e : Event)
    (he : e ∈ l.flatMap send_chunk) : isContentDelta e = true := by
  simp only [List.mem_flatMap, send_chunk, List.mem_singleton] at he
  obtain ⟨t, _, rfl⟩ := he
  rfl

theorem wellFormed_of_shape (msgId model : String) (deltas : List Event)
    (n : Nat) (hd : ∀ e ∈ deltas, isContentDelta e = true) :
    WellFormedStream (start_stream msgId model ++ deltas ++ end_stream n) := by
  refine ⟨msgId, model, ⟨10, 0, 0, 0⟩, deltas, "end_turn", n, hd, ?_⟩
  simp [start_stream, end_stream]

theorem flatMap_send_chunk_eq_map (l : List String) :
    l.flatMap send_chunk = l.map Event.content_block_delta := by
  induction l with
  | nil => rfl
  | cons x xs ih => simp [send_chunk, ih]

theorem deltaFragments_append (a b : List Event) :
    deltaFragments (a ++ b) = deltaFragments a ++ deltaFragments b := by
  simp [deltaFragments, List.filterMap_append]

theorem deltaFragments_map_delta (l : List String) :
    deltaFragments (l.map Event.content_block_delta) = l := by
  induction l with
  | nil => rfl
  | cons x xs ih => simp [deltaFragments] at ih ⊢; exact ih

theorem deltaFragments_route_gemini (msgId label text : String) :
    deltaFragments (route_gemini_stream msgId label text) = sliceText 30 text := by
  unfold route_gemini_stream
  rw [deltaFragments_append, deltaFragments_append, flatMap_send_chunk_eq_map,
    deltaFragments_map_delta]
  simp [deltaFragments, start_stream, end_stream]

theorem oaiFragments_append (a b : List OaiEvent) :
    oaiFragments (a ++ b) = oaiFragments a ++ oaiFragments b := by
  simp [oaiFragments, List.filterMap_append]

theorem oaiFragments_map_chunk (l : List String) :
    oaiFragments (l.map OaiEvent.contentChunk) = l := by
  induction l with
  | nil => rfl
  | cons x xs ih => simp [oaiFragments] at ih ⊢; exact ih

theorem oaiFragments_stream_openai (text : String) :
    oaiFragments (stream_openai_response text) = sliceText 20 text := by
  unfold stream_openai_response
  rw [oaiFragments_append, oaiFragments_append, oaiFragments_map_chunk]
  simp [oaiFragments]

/-- Claim C1: every synthetic message-block stream emitted by `route_gemini`
or `route_claude_real` is well-formed: one envelope-start sequence, then
content deltas only, then exactly one terminal sequence, and nothing after
it. -/
theorem c1_stream_wellformed (msgId label text msgId2 : String)
    (outcome : ClaudeOutcome) :
    WellFormedStream (route_gemini_stream msgId label text) ∧
    WellFormedStream (route_claude_real_stream msgId2 outcome) := by
  constructor
  · exact wellFormed_of_shape msgId label _ (countWords text)
      (mem_flatMap_send_chunk _)
  · cases outcome with
    | exitOk lines =>
      have h := wellFormed_of_shape msgId2 T3_MODEL
        ((lines.filter fun l => l ≠ "").flatMap send_chunk)
        (claudeTokens lines) (mem_flatMap_send_chunk _)
      simpa [route_claude_real_stream, List.append_assoc] using h
    | exitErr lines stderr =>
      have hd : ∀ e ∈ (lines.filter fun l => l ≠ "").flatMap send_chunk
          ++ send_chunk ("\n[Claude error: " ++ pyStrip stderr ++ "]"),
          isContentDelta e = true := by
        intro e he
        rcases List.mem_append.mp he with h1 | h1
        · exact mem_flatMap_send_chunk _ e h1
        · simp only [send_chunk, List.mem_singleton] at h1
          subst h1; rfl
      have h := wellFormed_of_shape msgId2 T3_MODEL
        ((lines.filter fun l => l ≠ "").flatMap send_chunk
          ++ send_chunk ("\n[Claude error: " ++ pyStrip stderr ++ "]"))
        (claudeTokens lines) hd
      simpa [route_claude_real_stream, List.append_assoc] using h
    | launchErr lines msg =>
      have hd : ∀ e ∈ (lines.filter fun l => l ≠ "").flatMap send_chunk
          ++ send_chunk ("\n[Claude launch error: " ++ msg ++ "]"),
          isContentDelta e = true := by
        intro e he
        rcases List.mem_append.mp he with h1 | h1
        · exact mem_flatMap_send_chunk _ e h1
        · simp only [send_chunk, List.mem_singleton] at h1
          subst h1; rfl
      have h := wellFormed_of_shape msgId2 T3_MODEL
        ((lines.filter fun l => l ≠ "").flatMap send_chunk
          ++ send_chunk ("\n[Claude launch error: " ++ msg ++ "]"))
        (claudeTokens lines) hd
      simpa [route_claude_real_stream, List.append_assoc] using h

/-- Claim C3: the chat-completion-chunk emitter (slice size 20,
`gemini_bridge.stream_openai_response`) and the message-block emitter
(slice size 30, `route_gemini`) emit exactly `⌈L / S⌉` content events, and
concatenating the emitted fragments in order reproduces the text. -/
theorem c3_slice_roundtrip (text : String) :
    ((oaiFragments (stream_openai_response text)).length
        = (text.length + 19) / 20
      ∧ String.join (oaiFragments (stream_openai_response text)) = text)
    ∧ ∀ msgId label : String,
      (deltaFragments (route_gemini_stream msgId label text)).length
          = (text.length + 29) / 30
      ∧ String.join (deltaFragments (route_gemini_stream msgId label text))
          = text := by
  refine ⟨⟨?_, ?_⟩, fun msgId label => ⟨?_, ?_⟩⟩
  · rw [oaiFragments_stream_openai, sliceText_length 20 (by omega)]
  · rw [oaiFragments_stream_openai, sliceText_join 20 (by omega)]
  · rw [deltaFragments_route_gemini, sliceText_length 30 (by omega)]
  · rw [deltaFragments_route_gemini, sliceText_join 30 (by omega)]

-- ── Claim C9: usage counters in message_start ───────────────────────────────

/-- Usage object of the first event of a stream, when that event is a
`message_start`. -/
def headUsage : List Event → Option Usage
  | Event.message_start _ _ u :: _ => some u
  | _ => none

/-- Claim C9 counterexample: the `message_start` event written by
`start_stream` carries `input_tokens = 10`, not `0`, so the usage counters
are not all zero. -/
theorem c9_counterexample :
    headUsage (start_stream "msg_a" "claude-opus-4-6")
        = some ⟨10, 0, 0, 0⟩
      ∧ (10 : Nat) ≠ 0 := by
  exact ⟨rfl, by decide⟩

/-- Claim C9 (amended): for every model label and message id, the
`message_start` event emitted by `start_stream` carries the generated
message id, `input_tokens` fixed at `10`, and zero output and cache token
counters. -/
theorem c9_message_start_usage (msgId model : String) :
    (start_stream msgId model).head?
        = some (Event.message_start msgId model ⟨10, 0, 0, 0⟩)
      ∧ headUsage (start_stream msgId model) = some ⟨10, 0, 0, 0⟩ := ⟨rfl, rfl⟩

-- ── Prompt normalizer: _flatten (router_proxy.py) ───────────────────────────

mutual
/-- A message `content` value as inspected by `_flatten`: a plain string, a
list of blocks, or any other Python value (rendered as `str(content)`,
carried here as its pre-rendered string form). -/
inductive Content where
  | str (s : String)
  | blocks (bs : List Block)
  | other (stringForm : String)

/-- One element of a content-block list as inspected by `_flatten`:
either not a dict (rendered as `str(block)`, carried pre-rendered), or a
dict whose `type` key selects a branch; a dict whose `type` is none of
`text` / `tool_result` / `tool_use` (including a missing `type` key, i.e.
`btype = ""`) matches no branch.  `tool_use` carries the
`json.dumps(block.get("input", {}))` rendering pre-computed. -/
inductive Block where
  | nonDict (stringForm : String)
  | textBlock (text : String)
  | tool_result (content : Content)
  | tool_use (name inputJson : String)
  | otherDict (btype : String)
end

mutual
/-- Model of `_flatten(content)`. -/
def flatten : Content → String
  | Content.str s => s
  | Content.blocks bs =>
      String.intercalate "\n" ((flattenBlocks bs).filter fun p => p ≠ "")
  | Content.other stringForm => stringForm

/-- The `parts` list accumulated by the loop of `_flatten` over a block
list: each block appends at most one string. -/
def flattenBlocks : List Block → List String
  | [] => []
  | b :: bs =>
    match flattenBlock b with
    | some p => p :: flattenBlocks bs
    | none => flattenBlocks bs

/-- What one block contributes to `parts`: `none` when the loop body
appends nothing for this block. -/
def flattenBlock : Block → Option String
  | Block.nonDict stringForm => some stringForm
  | Block.textBlock t => some t
  | Block.tool_result c => some (flatten c)
  | Block.tool_use name inputJson =>
      some ("[tool_use: " ++ name ++ "(" ++ inputJson ++ ")]")
  | Block.otherDict _ => none
end

theorem flattenBlocks_append (a b : List Block) :
    flattenBlocks (a ++ b) = flattenBlocks a ++ flattenBlocks b := by
  induction a with
  | nil => rfl
  | cons x xs ih =>
    simp only [List.cons_append, flattenBlocks]
    cases flattenBlock x <;> simp [ih]

/-- Python `str()` rendering of a single-key dict block
`\x7b"type": t\x7d`, as it would appear had `_flatten` stringified it. -/
def pyStrOtherDict (t : String) : String :=
  "\x7b'type': '" ++ t ++ "'\x7d"

/-- Claim C8 counterexample: a dict block with unrecognized type
(`\x7b"type": "image"\x7d`) is silently dropped by `_flatten` — the
flattened output is empty rather than the block's string form. -/
theorem c8_counterexample :
    flatten (Content.blocks [Block.otherDict "image"]) = ""
      ∧ pyStrOtherDict "image" ≠ ""
      ∧ flatten (Content.blocks [Block.otherDict "image"])
          ≠ pyStrOtherDict "image" := by
  refine ⟨rfl, by decide, by decide⟩

/-- Claim C8 (amended): blocks that are not dicts are rendered as their
string form, but dict blocks with an unrecognized `type` contribute
nothing to the flattened output — they are silently dropped. -/
theorem c8_unrecognized_blocks (t r : String) (bs₁ bs₂ : List Block) :
    flatten (Content.blocks (bs₁ ++ Block.otherDict t :: bs₂))
        = flatten (Content.blocks (bs₁ ++ bs₂))
      ∧ flatten (Content.blocks [Block.nonDict r]) = r := by
  constructor
  · show String.intercalate "\n" _ = String.intercalate "\n" _
    rw [flattenBlocks_append, flattenBlocks_append]
    have h : flattenBlocks (Block.otherDict t :: bs₂) = flattenBlocks bs₂ := by
      simp [flattenBlocks, flattenBlock]
    rw [h]
  · show String.intercalate "\n" ((flattenBlocks [Block.nonDict r]).filter
        fun p => p ≠ "") = r
    by_cases hr : r = ""
    · subst hr; rfl
    · simp only [flattenBlocks, flattenBlock, List.filter_cons,
        decide_not, List.filter_nil]
      rw [if_pos (by simpa using hr)]
      rfl

-- ── do_POST dispatch (router_proxy.py) ──────────────────────────────────────

/-- One inbound message, as inspected by the loop guard
(`messages[-1].get("role")`). -/
structure Message where
  role : String
  content : Content

/-- The parsed POST body fields `do_POST` reads.  `model = none` models a
body without a `"model"` key (Python `body.get("model", default)`). -/
structure RequestBody where
  model : Option String
  messages : List Message
  stream : Bool

/-- Model of `body.get("model", "claude-sonnet-4-6")`. -/
def effectiveModel (body : RequestBody) : String :=
  body.model.getD "claude-sonnet-4-6"

/-- The loop-guard condition
`messages and messages[-1].get("role") == "assistant"`. -/
def lastMessageIsAssistant (msgs : List Message) : Bool :=
  match msgs.getLast? with
  | some m => m.role == "assistant"
  | none => false

/-- What `do_POST` does with a request: answer it directly from the loop
guard, or hand it to exactly one tier adapter. -/
inductive PostAction where
  | loopGuard (stream : Bool) (model : String)
  | invokeT3 (stream : Bool)
  | invokeT2 (model : String) (stream : Bool)
  | invokeT1 (stream : Bool)
deriving DecidableEq, Repr

/-- Model of the dispatch logic of `do_POST`: loop guard first, then
routing by model name (`CLAUDE_REAL_MODELS` → T3, `GEMINI_MODELS` → T2,
anything else → T1). -/
def do_POST_dispatch (body : RequestBody) : PostAction :=
  let model := effectiveModel body
  if lastMessageIsAssistant body.messages then
    PostAction.loopGuard body.stream model
  else if model ∈ CLAUDE_REAL_MODELS then
    PostAction.invokeT3 body.stream
  else if model ∈ GEMINI_MODELS then
    PostAction.invokeT2 model body.stream
  else
    PostAction.invokeT1 body.stream

/-- Claim C2: a request whose last message has role `assistant` is answered
by the loop guard without invoking any tier adapter; the streaming reply is
just the envelope-start plus terminal events (zero content deltas,
`output_tokens = 0`, stop reason `end_turn`), and the non-streaming reply is
`non_stream_response(model, "")` with empty text and zero output tokens. -/
theorem c2_loop_guard (body : RequestBody) (msgId : String)
    (h : lastMessageIsAssistant body.messages = true) :
    do_POST_dispatch body = PostAction.loopGuard body.stream
        (effectiveModel body)
      ∧ loopGuardStream msgId (effectiveModel body)
          = [Event.message_start msgId (effectiveModel body) ⟨10, 0, 0, 0⟩,
             Event.content_block_start, Event.content_block_stop,
             Event.message_delta "end_turn" 0, Event.message_stop]
      ∧ deltaFragments (loopGuardStream msgId (effectiveModel body)) = []
      ∧ non_stream_response msgId (effectiveModel body) ""
          = ⟨msgId, effectiveModel body, "", "end_turn", 10, 0⟩ := by
  refine ⟨?_, rfl, rfl, ?_⟩
  · unfold do_POST_dispatch
    rw [if_pos h]
  · show non_stream_response msgId (effectiveModel body) ""
        = ⟨msgId, effectiveModel body, "", "end_turn", 10, 0⟩
    unfold non_stream_response
    have h0 : countWords "" = 0 := rfl
    rw [h0]

/-- Claim C2 witness at a concrete request. -/
theorem c2_loop_guard_witness :
    do_POST_dispatch ⟨none, [⟨"assistant", Content.str "hi"⟩], true⟩
        = PostAction.loopGuard true "claude-sonnet-4-6"
      ∧ deltaFragments (loopGuardStream "msg_w" "claude-sonnet-4-6") = [] := by
  have h := c2_loop_guard ⟨none, [⟨"assistant", Content.str "hi"⟩], true⟩
    "msg_w" (by decide)
  exact ⟨h.1, h.2.2.1⟩

/-- Claim C10: a POST body without a `"model"` field gets the default
identifier `claude-sonnet-4-6`, which belongs to neither the Gemini nor the
Claude-real model set, so (when the loop guard does not trigger) the
request is dispatched to the T1 (Ollama) tier. -/
theorem c10_default_model_routes_t1 (body : RequestBody)
    (hm : body.model = none)
    (hl : lastMessageIsAssistant body.messages = false) :
    effectiveModel body = "claude-sonnet-4-6"
      ∧ "claude-sonnet-4-6" ∉ GEMINI_MODELS
      ∧ "claude-sonnet-4-6" ∉ CLAUDE_REAL_MODELS
      ∧ do_POST_dispatch body = PostAction.invokeT1 body.stream := by
  have hem : effectiveModel body = "claude-sonnet-4-6" := by
    unfold effectiveModel
    rw [hm]
    rfl
  refine ⟨hem, by decide, by decide, ?_⟩
  unfold do_POST_dispatch
  rw [hl]
  simp only [Bool.false_eq_true, if_false, hem]
  rw [if_neg (by decide), if_neg (by decide)]

/-- Claim C10 witness at a concrete request without a model field. -/
theorem c10_default_model_witness :
    do_POST_dispatch ⟨none, [⟨"user", Content.str "ping"⟩], false⟩
        = PostAction.invokeT1 false := by
  exact (c10_default_model_routes_t1 ⟨none, [⟨"user", Content.str "ping"⟩],
    false⟩ rfl (by decide)).2.2.2

-- ── smart_router.py: SmartRouter.route ──────────────────────────────────────

/-- The `routing` section of `DEFAULT_CONFIG` (fields `route` reads). -/
structure RoutingCfg where
  always_try_t1_first : Bool
  max_retries_per_tier : Nat
  escalate_on_failure : Bool
deriving DecidableEq, Repr

/-- Default values of the `routing` config section. -/
def defaultRoutingCfg : RoutingCfg := ⟨true, 2, true⟩

/-- Tier labels in escalation order. -/
inductive TierTag where
  | T1
  | T2
  | T3
deriving DecidableEq, Repr

/-- Escalation rank: Primary < Secondary < LastResort. -/
def rank : TierTag → Nat
  | TierTag.T1 => 1
  | TierTag.T2 => 2
  | TierTag.T3 => 3

/-- One line of `routing_history.jsonl` as written by `_log_routing`
(timestamp omitted: it is wall-clock metadata). -/
structure LogEntry where
  tier : String
  task_type : String
  success : Bool
deriving DecidableEq, Repr

/-- Result of one `route` call, instrumented with the adapter invocations
made and the log entries appended, in order. -/
structure RouteResult where
  output : String
  invocations : List TierTag
  logs : List LogEntry
  succeededAt : Option TierTag
deriving DecidableEq, Repr

/-- External state one `route` call observes: tier availability probes and
the outcome `{tier}.run(prompt)` would produce at each attempt index. -/
structure RouterEnv where
  t1_available : Bool
  t2_available : Bool
  t1_results : Nat → Bool × String
  t2_results : Nat → Bool × String
  t3_result : Bool × String

/-- The acceptance test of the T1/T2 retry loops:
`if ok and output.strip():`. -/
def accepts (p : Bool × String) : Bool := p.1 && !(pyStrip p.2 == "")

/-- The per-tier retry loop `for attempt in range(k)` starting at attempt
index `i`: first accepted output (if any) and number of adapter
invocations made. -/
def attemptLoop (results : Nat → Bool × String) : Nat → Nat → Option String × Nat
  | _, 0 => (none, 0)
  | i, k + 1 =>
    if accepts (results i) then (some (results i).2, 1)
    else ((attemptLoop results (i + 1) k).1, (attemptLoop results (i + 1) k).2 + 1)

/-- One tier block of `route`: the loop runs only when the guard
(`always_try_t1_first and is_available()`, resp. `is_available()`) holds. -/
def tierPhase (guard : Bool) (results : Nat → Bool × String)
    (retries : Nat) : Option String × Nat :=
  if guard then attemptLoop results 0 retries else (none, 0)

/-- The terminal failure message returned when every tier is exhausted. -/
def allTiersFailedMsg : String :=
  "❌ All tiers failed. Check: ollama serve | gemini auth login | ANTHROPIC_API_KEY"

/-- Tail of `route` after T1 and T2 both failed: the T3 block and the
final failure return.  `inv` is the invocation trace so far. -/
def routeAfterT2 (cfg : RoutingCfg) (env : RouterEnv) (taskType : String)
    (inv : List TierTag) : RouteResult :=
  if cfg.escalate_on_failure then
    if env.t3_result.1 then
      ⟨env.t3_result.2, inv ++ [TierTag.T3],
       [⟨"T3_CLAUDE_LAST_RESORT", taskType, true⟩], some TierTag.T3⟩
    else
      ⟨allTiersFailedMsg, inv ++ [TierTag.T3], [], none⟩
  else
    ⟨allTiersFailedMsg, inv, [], none⟩

/-- Tail of `route` after T1 failed: the T2 block, then the T3 tail. -/
def routeAfterT1 (cfg : RoutingCfg) (env : RouterEnv) (taskType : String)
    (inv : List TierTag) : RouteResult :=
  match tierPhase env.t2_available env.t2_results cfg.max_retries_per_tier with
  | (some out, n) =>
      ⟨out, inv ++ List.replicate n TierTag.T2,
       [⟨"T2_GEMINI", taskType, true⟩], some TierTag.T2⟩
  | (none, n) =>
      routeAfterT2 cfg env taskType (inv ++ List.replicate n TierTag.T2)

/-- Model of `SmartRouter.route(prompt)` on the non-forced path
(`force_tier is None`): T1 retry loop, escalation to T2, escalation to T3,
then the fixed failure return. -/
def route (cfg : RoutingCfg) (env : RouterEnv) (taskType : String) :
    RouteResult :=
  match tierPhase (cfg.always_try_t1_first && env.t1_available)
      env.t1_results cfg.max_retries_per_tier with
  | (some out, n) =>
      ⟨out, List.replicate n TierTag.T1,
       [⟨"T1_OLLAMA_QWEN", taskType, true⟩], some TierTag.T1⟩
  | (none, n) =>
      routeAfterT1 cfg env taskType (List.replicate n TierTag.T1)

theorem attemptLoop_count_le (results : Nat → Bool × String) :
    ∀ (k i : Nat), (attemptLoop results i k).2 ≤ k := by
  intro k
  induction k with
  | zero => intro i; simp [attemptLoop]
  | succ k ih =>
    intro i
    simp only [attemptLoop]
    split
    · simp
    · simpa using ih (i + 1)

theorem tierPhase_count_le (guard : Bool) (results : Nat → Bool × String)
    (retries : Nat) : (tierPhase guard results retries).2 ≤ retries := by
  unfold tierPhase
  split
  · exact attemptLoop_count_le results retries 0
  · simp

/-- Invocation-trace shape of `route`: some T1 attempts, then some T2
attempts, then at most one T3 attempt. -/
theorem route_shape (cfg : RoutingCfg) (env : RouterEnv) (taskType : String) :
    ∃ a b c : Nat,
      (route cfg env taskType).invocations
          = List.replicate a TierTag.T1 ++ List.replicate b TierTag.T2
            ++ List.replicate c TierTag.T3
        ∧ a ≤ cfg.max_retries_per_tier ∧ b ≤ cfg.max_retries_per_tier
        ∧ c ≤ 1 := by
  have hafter2 : ∀ inv, ∃ c ≤ 1,
      (routeAfterT2 cfg env taskType inv).invocations
        = inv ++ List.replicate c TierTag.T3 := by
    intro inv
    unfold routeAfterT2
    split
    · split
      · exact ⟨1, by omega, rfl⟩
      · exact ⟨1, by omega, rfl⟩
    · exact ⟨0, by omega, by simp⟩
  have hafter1 : ∀ inv, ∃ b c : Nat,
      (routeAfterT1 cfg env taskType inv).invocations
          = inv ++ List.replicate b TierTag.T2 ++ List.replicate c TierTag.T3
        ∧ b ≤ cfg.max_retries_per_tier ∧ c ≤ 1 := by
    intro inv
    unfold routeAfterT1
    have hb := tierPhase_count_le env.t2_available env.t2_results
      cfg.max_retries_per_tier
    split
    next out n heq =>
      refine ⟨n, 0, by simp, ?_, by omega⟩
      rw [heq] at hb
      exact hb
    next n heq =>
      obtain ⟨c, hc, hc2⟩ := hafter2 (inv ++ List.replicate n TierTag.T2)
      refine ⟨n, c, by rw [hc2], ?_, hc⟩
      rw [heq] at hb
      exact hb
  unfold route
  have ha := tierPhase_count_le (cfg.always_try_t1_first && env.t1_available)
    env.t1_results cfg.max_retries_per_tier
  split
  next out n heq =>
    refine ⟨n, 0, 0, by simp, ?_, by omega, by omega⟩
    rw [heq] at ha
    exact ha
  next n heq =>
    obtain ⟨b, c, hinv, hbb, hcc⟩ := hafter1 (List.replicate n TierTag.T1)
    refine ⟨n, b, c, by rw [hinv, List.append_assoc], ?_, hbb, hcc⟩
    rw [heq] at ha
    exact ha

/-- Claim C4: on the non-forced path with the default configuration, the
tiers invoked by `route` are non-decreasing in rank (Primary ≤ Secondary ≤
LastResort) and no tier's adapter is invoked more than
`max_retries_per_tier = 2` times. -/
theorem c4_escalation_monotone (env : RouterEnv) (taskType : String) :
    ((route defaultRoutingCfg env taskType).invocations).Pairwise
        (fun x y => rank x ≤ rank y)
      ∧ ∀ t : TierTag,
        ((route defaultRoutingCfg env taskType).invocations).count t ≤ 2 := by
  obtain ⟨a, b, c, hinv, ha, hb, hc⟩ := route_shape defaultRoutingCfg env taskType
  rw [hinv]
  constructor
  · rw [List.pairwise_append]
    refine ⟨?_, List.pairwise_replicate.mpr (Or.inr (le_refl _)), ?_⟩
    · rw [List.pairwise_append]
      refine ⟨List.pairwise_replicate.mpr (Or.inr (le_refl _)),
        List.pairwise_replicate.mpr (Or.inr (le_refl _)), ?_⟩
      intro x hx y hy
      rw [List.eq_of_mem_replicate hx, List.eq_of_mem_replicate hy]
      decide
    · intro x hx y hy
      rw [List.eq_of_mem_replicate hy]
      rcases List.mem_append.mp hx with h | h
      · rw [List.eq_of_mem_replicate h]; decide
      · rw [List.eq_of_mem_replicate h]; decide
  · intro t
    have hmax : defaultRoutingCfg.max_retries_per_tier = 2 := rfl
    rw [hmax] at ha hb
    cases t <;>
      simp [List.count_append, List.count_replicate] <;>
      omega

theorem attemptLoop_none (results : Nat → Bool × String)
    (h : ∀ i, accepts (results i) = false) :
    ∀ (k i : Nat), (attemptLoop results i k).1 = none := by
  intro k
  induction k with
  | zero => intro i; simp [attemptLoop]
  | succ k ih =>
    intro i
    simp only [attemptLoop]
    rw [if_neg (by rw [h i]; exact Bool.false_ne_true)]
    exact ih (i + 1
      )

theorem tierPhase_none (guard : Bool) (results : Nat → Bool × String)
    (retries : Nat) (h : ∀ i, accepts (results i) = false) :
    (tierPhase guard results retries).1 = none := by
  unfold tierPhase
  split
  · exact attemptLoop_none results h retries 0
  · rfl

/-- Claim C5: when every T1 and T2 attempt fails the acceptance test and T3
also fails, `route` (default config) returns the fixed user-visible failure
message naming the availability checks for all three backends.  `route` is
a total Lean function of its inputs, reflecting that the Python code never
raises to its caller. -/
theorem c5_all_tiers_failed (env : RouterEnv) (taskType : String)
    (h1 : ∀ i, accepts (env.t1_results i) = false)
    (h2 : ∀ i, accepts (env.t2_results i) = false)
    (h3 : env.t3_result.1 = false) :
    (route defaultRoutingCfg env taskType).output = allTiersFailedMsg := by
  have hp1 := tierPhase_none (defaultRoutingCfg.always_try_t1_first
    && env.t1_available) env.t1_results defaultRoutingCfg.max_retries_per_tier h1
  have hp2 := tierPhase_none env.t2_available env.t2_results
    defaultRoutingCfg.max_retries_per_tier h2
  unfold route
  split
  next out n heq => rw [heq] at hp1; simp at hp1
  next n heq =>
    unfold routeAfterT1
    split
    next out m heq2 => rw [heq2] at hp2; simp at hp2
    next m heq2 =>
      unfold routeAfterT2
      rw [if_pos (show defaultRoutingCfg.escalate_on_failure = true from rfl),
        if_neg (show ¬env.t3_result.1 = true by simp [h3])]

/-- Environment in which every adapter attempt fails. -/
def constFailEnv : RouterEnv :=
  ⟨true, true, fun _ => (false, ""), fun _ => (false, ""), (false, "")⟩

/-- Claim C5 witness: concrete all-failing environment. -/
theorem c5_all_tiers_failed_witness :
    (route defaultRoutingCfg constFailEnv "general").output
      = allTiersFailedMsg :=
  c5_all_tiers_failed constFailEnv "general" (fun _ => rfl) (fun _ => rfl) rfl

/-- Claim C6 counterexample: in the all-failing environment `route` reaches
the terminal failure state (output is the all-tiers-failed message) yet
appends zero `LogEntry` lines, not exactly one. -/
theorem c6_counterexample :
    (route defaultRoutingCfg constFailEnv "general").logs = []
      ∧ (route defaultRoutingCfg constFailEnv "general").output
          = allTiersFailedMsg := ⟨rfl, rfl⟩

/-- Claim C6 (amended): a `route` call that succeeds at some tier appends
exactly one LogEntry; the all-tiers-failed terminal state appends none (the
failure return skips `_log_routing`). -/
theorem c6_logging (cfg : RoutingCfg) (env : RouterEnv) (taskType : String) :
    ((route cfg env taskType).succeededAt.isSome
        ∧ (route cfg env taskType).logs.length = 1)
      ∨ ((route cfg env taskType).succeededAt = none
        ∧ (route cfg env taskType).logs = []
        ∧ (route cfg env taskType).output = allTiersFailedMsg) := by
  have hafter2 : ∀ inv,
      ((routeAfterT2 cfg env taskType inv).succeededAt.isSome
        ∧ (routeAfterT2 cfg env taskType inv).logs.length = 1)
      ∨ ((routeAfterT2 cfg env taskType inv).succeededAt = none
        ∧ (routeAfterT2 cfg env taskType inv).logs = []
        ∧ (routeAfterT2 cfg env taskType inv).output = allTiersFailedMsg) := by
    intro inv
    unfold routeAfterT2
    split
    · split
      · exact Or.inl ⟨rfl, rfl⟩
      · exact Or.inr ⟨rfl, rfl, rfl⟩
    · exact Or.inr ⟨rfl, rfl, rfl⟩
  have hafter1 : ∀ inv,
      ((routeAfterT1 cfg env taskType inv).succeededAt.isSome
        ∧ (routeAfterT1 cfg env taskType inv).logs.length = 1)
      ∨ ((routeAfterT1 cfg env taskType inv).succeededAt = none
        ∧ (routeAfterT1 cfg env taskType inv).logs = []
        ∧ (routeAfterT1 cfg env taskType inv).output = allTiersFailedMsg) := by
    intro inv
    unfold routeAfterT1
    split
    · exact Or.inl ⟨rfl, rfl⟩
    · apply hafter2
  unfold route
  split
  · exact Or.inl ⟨rfl, rfl⟩
  · apply hafter1

-- ── Gemini adapters: GeminiTier.run / call_gemini_cli / call_gemini ─────────

/-- Substring test over character lists (Python `needle in hay`). -/
def containsSub : List Char → List Char → Bool
  | [], needle => needle.isEmpty
  | h :: hs, needle => needle.isPrefixOf (h :: hs) || containsSub hs needle

/-- Python `s.lower()`, as a character list. -/
def pyLower (s : String) : List Char := s.data.map Char.toLower

/-- The auth test of `GeminiTier.run`:
`"auth" in errors.lower() or "login" in errors.lower()`. -/
def errIndicatesAuth (stderr : String) : Bool :=
  containsSub (pyLower stderr) "auth".data
    || containsSub (pyLower stderr) "login".data

/-- Outcome of one `gemini` CLI invocation for one candidate model:
a subprocess timeout, a raised exception, or a completed process with its
exit status (`rcZero` = exited 0), stdout, and stderr. -/
inductive ProcResult where
  | timeout
  | exn (msg : String)
  | completed (rcZero : Bool) (stdout stderr : String)
deriving DecidableEq, Repr

/-- A candidate invocation "succeeds" when the process exits 0 with
non-empty stripped stdout — the acceptance test shared by all three Gemini
adapters. -/
def succeeds : ProcResult → Bool
  | ProcResult.completed rcZero out _ => rcZero && !(pyStrip out == "")
  | _ => false

/-- Model of `GeminiTier.run` (smart_router.py): walk the candidate-model
outcomes in order; accept the first success; stop with
`(False, "Auth required")` on an auth-flavoured stderr; `continue` on
timeouts, exceptions and other failures; return
`(False, "All Gemini models failed")` when the candidates are exhausted. -/
def geminiRun : List ProcResult → Bool × String
  | [] => (false, "All Gemini models failed")
  | o :: rest =>
    match o with
    | ProcResult.timeout => geminiRun rest
    | ProcResult.exn _ => geminiRun rest
    | ProcResult.completed rcZero out err =>
      if rcZero && !(pyStrip out == "") then (true, pyStrip out)
      else if errIndicatesAuth err then (false, "Auth required")
      else geminiRun rest

/-- Model of `call_gemini_cli` (router_proxy.py) and of the identical
`call_gemini` (gemini_bridge.py): walk the candidate outcomes, accept the
first success, return `"Gemini timeout"` / `"Gemini error: …"` immediately
on a timeout or exception, and `"Gemini: no response"` when the candidates
are exhausted — always plain text, which the caller renders as a normal
successful response. -/
def call_gemini_cli : List ProcResult → String
  | [] => "Gemini: no response"
  | o :: rest =>
    match o with
    | ProcResult.timeout => "Gemini timeout"
    | ProcResult.exn e => "Gemini error: " ++ e
    | ProcResult.completed rcZero out _ =>
      if rcZero && !(pyStrip out == "") then pyStrip out
      else call_gemini_cli rest

/-- Claim C7 counterexample: with a single candidate that exits non-zero
with empty stdout (no candidate succeeds, stderr not auth-flavoured),
`GeminiTier.run` reports `ok = false` with "All Gemini models failed" —
not `ok = true` with diagnostic text as the claim states. -/
theorem c7_counterexample :
    (∀ o ∈ [ProcResult.completed false "" "exit status 1"],
        succeeds o = false)
      ∧ geminiRun [ProcResult.completed false "" "exit status 1"]
          = (false, "All Gemini models failed") := by
  constructor
  · intro o ho
    simp only [List.mem_singleton] at ho
    subst ho
    rfl
  · rfl

/-- Claim C7 (amended): when no candidate model succeeds, the proxy and
bridge adapters (`call_gemini_cli` / `call_gemini`) still return non-empty
diagnostic text that the caller renders as a successful response, but
`GeminiTier.run` (smart_router.py) reports `ok = false` (either
"Auth required" or "All Gemini models failed"). -/
theorem c7_no_candidate_success (outcomes : List ProcResult)
    (h : ∀ o ∈ outcomes, succeeds o = false) :
    call_gemini_cli outcomes ≠ "" ∧ (geminiRun outcomes).1 = false := by
  induction outcomes with
  | nil => exact ⟨by decide, rfl⟩
  | cons o rest ih =>
    have hrest : ∀ o ∈ rest, succeeds o = false := by
      intro x hx
      exact h x (List.mem_cons_of_mem o hx)
    have hhead : succeeds o = false := h o (List.mem_cons_self o rest)
    cases o with
    | timeout =>
      constructor
      · show ("Gemini timeout" : String) ≠ ""
        decide
      · show (geminiRun rest).1 = false
        exact (ih hrest).2
    | exn e =>
      constructor
      · intro hc
        have hc2 : ("Gemini error: " ++ e : String) = "" := hc
        have hlen := congrArg String.length hc2
        rw [String.length_append] at hlen
        have h14 : ("Gemini error: " : String).length = 14 := rfl
        have h0 : ("" : String).length = 0 := rfl
        rw [h14, h0] at hlen
        omega
      · show (geminiRun rest).1 = false
        exact (ih hrest).2
    | completed rcZero out err =>
      have hcond : (rcZero && !(pyStrip out == "")) = false := hhead
      constructor
      · show (if rcZero && !(pyStrip out == "") then pyStrip out
            else call_gemini_cli rest) ≠ ""
        rw [hcond]
        simp only [Bool.false_eq_true, if_false]
        exact (ih hrest).1
      · show (if rcZero && !(pyStrip out == "") then
              ((true, pyStrip out) : Bool × String)
            else if errIndicatesAuth err then (false, "Auth required")
            else geminiRun rest).1 = false
        rw [hcond]
        simp only [Bool.false_eq_true, if_false]
        by_cases hauth : errIndicatesAuth err = true
        · rw [if_pos hauth]
        · rw [if_neg hauth]
          exact (ih hrest).2

/-- Claim C7 witness: a single timed-out candidate. -/
theorem c7_no_candidate_success_witness :
    call_gemini_cli [ProcResult.timeout] ≠ ""
      ∧ (geminiRun [ProcResult.timeout]).1 = false := by
  refine c7_no_candidate_success [ProcResult.timeout] ?_
  intro o ho
  simp only [List.mem_singleton] at ho
  subst ho
  rfl

end DsrRouter
